import Mathlib

/-!
Verification of the RampForgeAI client-side session authentication subsystem.

The development shallowly embeds three cooperating components of the frontend:

* the Token Store (static methods of class AuthService in frontend/src/lib/auth.ts:
  getToken, setToken, removeToken, getUser, setUser, plus the remote calls
  login, logout, getCurrentUser, verifyToken);
* the Session Controller (AuthProvider in
  frontend/src/components/auth/AuthProvider.tsx: the initAuth effect, the
  periodic validation interval, login, logout, and the auth-expired listener);
* the Access Guard (ProtectedRoute in
  frontend/src/components/auth/ProtectedRoute.tsx) and the shared API client
  (ApiClient.handleResponse in frontend/src/lib/api.ts).

Modelling conventions:

* localStorage is an association list from string keys to stored values.
  JSON.stringify / JSON.parse round-trip on the User records the code stores,
  so a stored user is represented pre-serialization by a dedicated
  constructor rather than by re-implementing a JSON codec.
* The single cookie the code ever writes (rampforge_token) is modelled as an
  Option String: the assignment with a value corresponds to some token, the
  assignment with an empty value and an already-passed expires date
  corresponds to none. Cookie attributes (path, secure, samesite) are not
  observable by any modelled operation and are not represented.
* typeof window is modelled by the isBrowser flag of the client state.
* Each remote call is a pure state transformer parameterized by the outcome
  of its fetch (an environment value): a resolved response with a status and
  body, or a rejected fetch (network error). Await points are made explicit
  where a claim depends on ordering (initAuth is split into its synchronous
  prefix and its resumptions).
-/

/-- A user record, from the User interface of frontend/src/lib/auth.ts.
The values of the learning_progress record are modelled opaquely as strings. -/
structure User where
  id : String
  email : String
  name : String
  role : String
  is_active : Bool
  skills : List String
  learning_progress : List (String × String)
  created_at : String
  last_active : Option String
deriving DecidableEq

/-- The AuthResponse interface of frontend/src/lib/auth.ts. -/
structure AuthResponse where
  access_token : String
  token_type : String
  expires_in : Nat
  user : User
deriving DecidableEq

/-- A value held in localStorage: a plain string, or a User record stored in
serialized form (JSON.parse of JSON.stringify is the identity on these). -/
inductive StoredVal where
  | str : String → StoredVal
  | usr : User → StoredVal
deriving DecidableEq

/-- The browser-visible persistent state: whether a window object exists,
the localStorage contents, and the mirrored rampforge_token cookie. -/
structure ClientState where
  isBrowser : Bool
  storage : List (String × StoredVal)
  cookie : Option String
deriving DecidableEq

/-- localStorage.getItem. -/
def storeGet (m : List (String × StoredVal)) (k : String) : Option StoredVal :=
  (m.find? (fun p => p.1 == k)).map (fun p => p.2)

/-- localStorage.setItem: overwrites any prior value under the key. -/
def storeSet (m : List (String × StoredVal)) (k : String) (v : StoredVal) :
    List (String × StoredVal) :=
  (k, v) :: m.filter (fun p => !(p.1 == k))

/-- localStorage.removeItem. -/
def storeRemove (m : List (String × StoredVal)) (k : String) :
    List (String × StoredVal) :=
  m.filter (fun p => !(p.1 == k))

theorem find?_key_filter_ne (m : List (String × StoredVal)) (k k2 : String)
    (h : k ≠ k2) :
    (m.filter (fun p => !(p.1 == k2))).find? (fun p => p.1 == k) =
      m.find? (fun p => p.1 == k) := by
  induction m with
  | nil => rfl
  | cons p t ih =>
    cases hp : (p.1 == k2) with
    | true =>
      have hk : (p.1 == k) = false := by
        rw [beq_eq_false_iff_ne]
        intro hkk
        rw [beq_iff_eq] at hp
        exact h (hkk.symm.trans hp)
      simp only [List.filter_cons, List.find?_cons, hp, hk, Bool.not_true,
        Bool.false_eq_true, if_false]
      exact ih
    | false =>
      cases hk : (p.1 == k) with
      | true =>
        simp only [List.filter_cons, List.find?_cons, hp, hk, Bool.not_false,
          if_true]
      | false =>
        simp only [List.filter_cons, List.find?_cons, hp, hk, Bool.not_false,
          if_true]
        exact ih

theorem storeGet_storeRemove_self (m : List (String × StoredVal)) (k : String) :
    storeGet (storeRemove m k) k = none := by
  unfold storeGet storeRemove
  rw [Option.map_eq_none']
  rw [List.find?_eq_none]
  intro x hx
  have hfail := List.of_mem_filter hx
  simp only [Bool.not_eq_eq_eq_not, Bool.not_true] at hfail
  simp [hfail]

theorem storeGet_storeRemove_of_ne (m : List (String × StoredVal)) (k k2 : String)
    (h : k ≠ k2) : storeGet (storeRemove m k2) k = storeGet m k := by
  unfold storeGet storeRemove
  rw [find?_key_filter_ne m k k2 h]

theorem storeGet_storeSet_self (m : List (String × StoredVal)) (k : String)
    (v : StoredVal) : storeGet (storeSet m k v) k = some v := by
  unfold storeGet storeSet
  rw [List.find?_cons_of_pos _ (by simp)]
  rfl

theorem storeGet_storeSet_of_ne (m : List (String × StoredVal)) (k k2 : String)
    (v : StoredVal) (h : k ≠ k2) : storeGet (storeSet m k2 v) k = storeGet m k := by
  unfold storeGet storeSet
  rw [List.find?_cons_of_neg _ (by simp; intro hk; exact h hk.symm)]
  rw [find?_key_filter_ne m k k2 h]

theorem storeRemove_of_get_none (m : List (String × StoredVal)) (k : String)
    (h : storeGet m k = none) : storeRemove m k = m := by
  unfold storeGet at h
  rw [Option.map_eq_none', List.find?_eq_none] at h
  unfold storeRemove
  rw [List.filter_eq_self]
  intro a ha
  have := h a ha
  simp only [Bool.not_eq_eq_eq_not, Bool.not_true]
  simpa using this

theorem storeRemove_idem (m : List (String × StoredVal)) (k : String) :
    storeRemove (storeRemove m k) k = storeRemove m k :=
  storeRemove_of_get_none _ _ (storeGet_storeRemove_self m k)

theorem storeRemove_comm_get (m : List (String × StoredVal)) (k k1 k2 : String) :
    storeGet (storeRemove (storeRemove m k1) k2) k = none ∨
      storeGet (storeRemove (storeRemove m k1) k2) k = storeGet m k := by
  by_cases h2 : k = k2
  · exact Or.inl (h2 ▸ storeGet_storeRemove_self _ _)
  · by_cases h1 : k = k1
    · exact Or.inl (by
        rw [storeGet_storeRemove_of_ne _ _ _ h2]
        exact h1 ▸ storeGet_storeRemove_self _ _)
    · exact Or.inr (by
        rw [storeGet_storeRemove_of_ne _ _ _ h2, storeGet_storeRemove_of_ne _ _ _ h1])

namespace AuthService

/-- The localStorage key of the bearer token (AuthService.TOKEN_KEY). -/
def TOKEN_KEY : String := "rampforge_token"

/-- The localStorage key of the cached user snapshot (AuthService.USER_KEY). -/
def USER_KEY : String := "rampforge_user"

/-- AuthService.getToken: null outside a browser, otherwise the stored token. -/
def getToken (s : ClientState) : Option String :=
  if s.isBrowser then
    match storeGet s.storage TOKEN_KEY with
    | some (StoredVal.str t) => some t
    | _ => none
  else none

/-- AuthService.setToken: writes the token into localStorage and mirrors it
into the rampforge_token cookie; a no-op outside a browser. -/
def setToken (s : ClientState) (token : String) : ClientState :=
  if s.isBrowser then
    { s with
        storage := storeSet s.storage TOKEN_KEY (StoredVal.str token)
        cookie := some token }
  else s

/-- AuthService.removeToken: removes the token and the user snapshot from
localStorage and expires the mirrored cookie; a no-op outside a browser. -/
def removeToken (s : ClientState) : ClientState :=
  if s.isBrowser then
    { s with
        storage := storeRemove (storeRemove s.storage TOKEN_KEY) USER_KEY
        cookie := none }
  else s

/-- AuthService.getUser: null outside a browser, otherwise the parsed cached
user snapshot (null when the key is absent). -/
def getUser (s : ClientState) : Option User :=
  if s.isBrowser then
    match storeGet s.storage USER_KEY with
    | some (StoredVal.usr u) => some u
    | _ => none
  else none

/-- AuthService.setUser: stores the serialized user snapshot; a no-op outside
a browser. -/
def setUser (s : ClientState) (u : User) : ClientState :=
  if s.isBrowser then
    { s with storage := storeSet s.storage USER_KEY (StoredVal.usr u) }
  else s

/-- Outcome of the fetch inside AuthService.verifyToken: the response
resolved with a status, or the fetch itself rejected (network error). -/
inductive VerifyResult where
  | resolved : Nat → VerifyResult
  | netError : VerifyResult
deriving DecidableEq

/-- Whether an HTTP status counts as response.ok. -/
def statusOk (status : Nat) : Bool :=
  200 ≤ status && status < 300

/-- AuthService.verifyToken. Returns the state after any side effect together
with the boolean the promise resolves to. With no stored token it resolves
false without any network call. A non-ok response resolves false, removing
the token only when the status is 401. A rejected fetch is caught, logged
and resolves false without touching the store; the function never throws. -/
def verifyToken (s : ClientState) (env : VerifyResult) : ClientState × Bool :=
  match getToken s with
  | none => (s, false)
  | some _ =>
    match env with
    | VerifyResult.resolved status =>
      if statusOk status then (s, true)
      else if status = 401 then (removeToken s, false)
      else (s, false)
    | VerifyResult.netError => (s, false)

/-- Outcome of the fetch inside AuthService.getCurrentUser: an ok response
carrying a parsed User body, a non-ok response with a status, or a rejected
fetch. A body of an ok response that fails to parse is covered by badBody
(the rejection of response.json() is caught by the same catch block). -/
inductive MeResult where
  | ok : User → MeResult
  | httpError : Nat → MeResult
  | badBody : MeResult
  | netError : MeResult
deriving DecidableEq

/-- AuthService.getCurrentUser. Resolves with the fetched user on success
(caching it), and with null on every failure; the token is removed only on a
401 response. The catch block swallows network and parse errors, so the
function never throws. -/
def getCurrentUser (s : ClientState) (env : MeResult) : ClientState × Option User :=
  match getToken s with
  | none => (s, none)
  | some _ =>
    match env with
    | MeResult.ok u => (setUser s u, some u)
    | MeResult.httpError status =>
      if status = 401 then (removeToken s, none) else (s, none)
    | MeResult.badBody => (s, none)
    | MeResult.netError => (s, none)

/-- Outcome of the fetch inside AuthService.login: an ok response with a
parsed AuthResponse, a non-ok response whose JSON body may carry a detail
field (none models an absent or empty detail, which JS treats as falsy), a
response whose body failed to parse (the json() rejection propagates), or a
rejected fetch (the rejection propagates). -/
inductive LoginResult where
  | ok : AuthResponse → LoginResult
  | httpError : Option String → LoginResult
  | badBody : String → LoginResult
  | netError : String → LoginResult
deriving DecidableEq

/-- AuthService.login. On an ok response it stores the returned token and
user and resolves with the response; every failure is re-raised to the
caller (modelled as Except.error carrying the thrown message) with the
client state untouched. -/
def login (s : ClientState) (env : LoginResult) : ClientState × Except String AuthResponse :=
  match env with
  | LoginResult.ok resp =>
    (setUser (setToken s resp.access_token) resp.user, Except.ok resp)
  | LoginResult.httpError detail =>
    (s, Except.error (detail.getD "Login failed"))
  | LoginResult.badBody msg => (s, Except.error msg)
  | LoginResult.netError msg => (s, Except.error msg)

/-- Outcome of the fetch inside AuthService.logout. -/
inductive LogoutResult where
  | ok : LogoutResult
  | failed : LogoutResult
deriving DecidableEq

/-- AuthService.logout. The remote call runs only when a token is present
and its failure is caught and logged; in every case the function ends by
calling removeToken, so the environment outcome never affects the state. -/
def logout (s : ClientState) (env : LogoutResult) : ClientState :=
  match env with
  | _ => removeToken s

end AuthService

/-- The React state owned by AuthProvider: the user value of useState and the
isLoading flag. -/
structure AuthCtrl where
  user : Option User
  isLoading : Bool
deriving DecidableEq

/-- The isAuthenticated value exposed through the context:
a user is set and a token is stored. -/
def isAuthenticated (s : ClientState) (c : AuthCtrl) : Bool :=
  c.user.isSome && (AuthService.getToken s).isSome

/-- The session state of the specification, derived from the exposed context
value: Initializing while isLoading, Authenticated when a user and a token
are both present, Unauthenticated otherwise. -/
inductive SessionState where
  | initializing : SessionState
  | authenticated : User → SessionState
  | unauthenticated : SessionState
deriving DecidableEq

/-- Reads the session state off the exposed controller values. -/
def sessionState (s : ClientState) (c : AuthCtrl) : SessionState :=
  if c.isLoading then SessionState.initializing
  else
    match c.user, AuthService.getToken s with
    | some u, some _ => SessionState.authenticated u
    | _, _ => SessionState.unauthenticated

/-- Where the initAuth effect of AuthProvider first suspends. -/
inductive InitSuspension where
  | finished : InitSuspension
  | onVerify : InitSuspension
  | onGetUser : InitSuspension
deriving DecidableEq

/-- The synchronous prefix of the initAuth effect: setIsLoading(true), read
the token, and either finish at once (no token: setUser(null) and the
finally block run with no await in between) or suspend on the first awaited
call, which is verifyToken when a cached user exists and getCurrentUser
otherwise. The returned controller value is the React state visible to the
rest of the application until the awaited promise resolves. -/
def initAuthSync (s : ClientState) (c : AuthCtrl) : AuthCtrl × InitSuspension :=
  let c1 : AuthCtrl := { c with isLoading := true }
  match AuthService.getToken s with
  | none => ({ c1 with user := none, isLoading := false }, InitSuspension.finished)
  | some _ =>
    match AuthService.getUser s with
    | some _ => (c1, InitSuspension.onVerify)
    | none => (c1, InitSuspension.onGetUser)

/-- Resumption of initAuth once the awaited verifyToken resolves, for the
path with a cached user. currentUser was read before the await, from the
pre-await client state. On a true result the cached user is installed; on a
false result removeToken is called and the user cleared. The finally block
ends isLoading in both branches. -/
def initAuthResumeVerify (s : ClientState) (c : AuthCtrl)
    (env : AuthService.VerifyResult) : ClientState × AuthCtrl :=
  let currentUser := AuthService.getUser s
  let r := AuthService.verifyToken s env
  if r.2 then
    (r.1, { c with user := currentUser, isLoading := false })
  else
    (AuthService.removeToken r.1, { c with user := none, isLoading := false })

/-- Resumption of initAuth once the awaited getCurrentUser resolves, for the
path without a cached user: the resolved value (possibly null) becomes the
user and the finally block ends isLoading. getCurrentUser never rejects, so
the catch block of initAuth is not reachable on this path. -/
def initAuthResumeMe (s : ClientState) (c : AuthCtrl)
    (env : AuthService.MeResult) : ClientState × AuthCtrl :=
  let r := AuthService.getCurrentUser s env
  (r.1, { c with user := r.2, isLoading := false })

/-- One tick of the periodic validation interval of AuthProvider: read the
current token; when present, await verifyToken and clear the user whenever
it resolves false. -/
def periodicTick (s : ClientState) (c : AuthCtrl)
    (env : AuthService.VerifyResult) : ClientState × AuthCtrl :=
  match AuthService.getToken s with
  | none => (s, c)
  | some _ =>
    let r := AuthService.verifyToken s env
    if r.2 then (r.1, c) else (r.1, { c with user := none })

/-- The login function of AuthProvider: await AuthService.login and install
the returned user; a rejection is re-thrown to the caller (the third
component carries the propagated error message). -/
def loginCtrl (s : ClientState) (c : AuthCtrl)
    (env : AuthService.LoginResult) : ClientState × AuthCtrl × Option String :=
  match AuthService.login s env with
  | (s1, Except.ok resp) => (s1, { c with user := some resp.user }, none)
  | (s1, Except.error e) => (s1, c, some e)

/-- The logout function of AuthProvider: await AuthService.logout (which
never rejects) and clear the user; the catch branch clears the user as well. -/
def logoutCtrl (s : ClientState) (c : AuthCtrl)
    (env : AuthService.LogoutResult) : ClientState × AuthCtrl :=
  (AuthService.logout s env, { c with user := none })

/-- The auth-expired listener of AuthProvider: setUser(null). -/
def handleAuthExpired (c : AuthCtrl) : AuthCtrl :=
  { c with user := none }

/-- What ProtectedRoute returns from its render body. -/
inductive RenderResult where
  | fallbackView : RenderResult
  | childrenView : RenderResult
  | emptyView : RenderResult
deriving DecidableEq

/-- A navigation issued through router.push by ProtectedRoute. -/
inductive NavTarget where
  | loginPage : NavTarget
  | unauthorizedPage : NavTarget
deriving DecidableEq

/-- The render body of ProtectedRoute: the fallback while isLoading, null
when not authenticated (the redirect effect is in flight), and the children
otherwise — the role requirement is not consulted by the render body. -/
def protectedRouteRender (s : ClientState) (c : AuthCtrl) : RenderResult :=
  if c.isLoading then RenderResult.fallbackView
  else if !(isAuthenticated s c) then RenderResult.emptyView
  else RenderResult.childrenView

/-- The redirect effect of ProtectedRoute, run once per change of its
dependencies: nothing while loading, a push to /login when not
authenticated, a push to /unauthorized when a non-empty requiredRole list
excludes the role of the current user, and no navigation otherwise. -/
def protectedRouteEffect (s : ClientState) (c : AuthCtrl)
    (requiredRole : List String) : Option NavTarget :=
  if c.isLoading then none
  else if !(isAuthenticated s c) then some NavTarget.loginPage
  else if requiredRole.length > 0 &&
      (match c.user with
       | some u => !(requiredRole.contains u.role)
       | none => false) then
    some NavTarget.unauthorizedPage
  else none

/-- The JSON body of a response as used by ApiClient.handleResponse: the
optional detail and message fields (none models an absent or falsy field). -/
structure JsonBody where
  detail : Option String
  message : Option String
deriving DecidableEq

/-- How the body of a response behaves under response.json(). -/
inductive Body where
  | json : JsonBody → Body
  | broken : String → Body
deriving DecidableEq

/-- An event dispatched on window, recorded together with the client state
at the moment of dispatch. -/
structure Dispatched where
  name : String
  stateAtDispatch : ClientState
deriving DecidableEq

/-- The ApiResponse value of frontend/src/lib/api.ts; the data payload is
represented by the parsed body. -/
structure ApiResponse where
  data : Option JsonBody
  error : Option String
  status : Nat
deriving DecidableEq

/-- The error message ApiClient.handleResponse builds for a non-ok response:
data.detail, else data.message, else HTTP followed by the status. -/
def apiErrorMessage (b : JsonBody) (status : Nat) : String :=
  b.detail.getD (b.message.getD ("HTTP " ++ toString status))

/-- ApiClient.handleResponse. In a browser, a 401 status first removes the
token and the user snapshot from localStorage and expires the mirrored
cookie, and only then dispatches the auth-expired event on window (the
recorded Dispatched state is therefore the already-cleared state). The body
is then parsed: a parse failure yields an error response, a non-ok status
yields an error message, and an ok status yields the data. -/
def handleResponse (s : ClientState) (status : Nat) (b : Body) :
    ClientState × List Dispatched × ApiResponse :=
  let cleared : ClientState :=
    if status = 401 && s.isBrowser then
      { s with
          storage := storeRemove (storeRemove s.storage AuthService.TOKEN_KEY)
            AuthService.USER_KEY
          cookie := none }
    else s
  let events : List Dispatched :=
    if status = 401 && s.isBrowser then [{ name := "auth-expired", stateAtDispatch := cleared }]
    else []
  let api : ApiResponse :=
    match b with
    | Body.json v =>
      if AuthService.statusOk status then
        { data := some v, error := none, status := status }
      else
        { data := none, error := some (apiErrorMessage v status), status := status }
    | Body.broken msg =>
      { data := none, error := some ("Failed to parse response: " ++ msg),
        status := status }
  (cleared, events, api)

/-- A concrete user for witnesses, shaped like the scenario of the spec. -/
def sampleUser : User :=
  { id := "u1", email := "a@b.com", name := "Alice", role := "developer",
    is_active := true, skills := [], learning_progress := [],
    created_at := "2024-01-01", last_active := none }

/-- A warm-start browser state: token and cached user both present. -/
def warmState : ClientState :=
  { isBrowser := true,
    storage := [(AuthService.TOKEN_KEY, StoredVal.str "T1"),
                (AuthService.USER_KEY, StoredVal.usr sampleUser)],
    cookie := some "T1" }

/-- The initial React state of AuthProvider: user null, isLoading true. -/
def mountCtrl : AuthCtrl := { user := none, isLoading := true }

/-- A settled authenticated controller state. -/
def authedCtrl : AuthCtrl := { user := some sampleUser, isLoading := false }

/-- An empty browser store. -/
def emptyBrowserState : ClientState :=
  { isBrowser := true, storage := [], cookie := none }

theorem token_key_ne_user_key : AuthService.TOKEN_KEY ≠ AuthService.USER_KEY := by
  decide

theorem getToken_removeToken (s : ClientState) :
    AuthService.getToken (AuthService.removeToken s) = none := by
  cases hb : s.isBrowser with
  | false => simp [AuthService.getToken, AuthService.removeToken, hb]
  | true =>
    have h1 : storeGet (storeRemove (storeRemove s.storage AuthService.TOKEN_KEY)
        AuthService.USER_KEY) AuthService.TOKEN_KEY = none := by
      rw [storeGet_storeRemove_of_ne _ _ _ token_key_ne_user_key,
        storeGet_storeRemove_self]
    simp [AuthService.getToken, AuthService.removeToken, hb, h1]

theorem getUser_removeToken (s : ClientState) :
    AuthService.getUser (AuthService.removeToken s) = none := by
  cases hb : s.isBrowser with
  | false => simp [AuthService.getUser, AuthService.removeToken, hb]
  | true =>
    have h1 : storeGet (storeRemove (storeRemove s.storage AuthService.TOKEN_KEY)
        AuthService.USER_KEY) AuthService.USER_KEY = none :=
      storeGet_storeRemove_self _ _
    simp [AuthService.getUser, AuthService.removeToken, hb, h1]

theorem cookie_removeToken (s : ClientState) (hb : s.isBrowser = true) :
    (AuthService.removeToken s).cookie = none := by
  simp [AuthService.removeToken, hb]

theorem getToken_setToken (s : ClientState) (t : String) (hb : s.isBrowser = true) :
    AuthService.getToken (AuthService.setToken s t) = some t := by
  have h1 : storeGet (storeSet s.storage AuthService.TOKEN_KEY (StoredVal.str t))
      AuthService.TOKEN_KEY = some (StoredVal.str t) :=
    storeGet_storeSet_self _ _ _
  simp [AuthService.getToken, AuthService.setToken, hb, h1]

theorem getToken_setUser (s : ClientState) (u : User) :
    AuthService.getToken (AuthService.setUser s u) = AuthService.getToken s := by
  cases hb : s.isBrowser with
  | false => simp [AuthService.setUser, hb]
  | true =>
    have h1 : storeGet (storeSet s.storage AuthService.USER_KEY (StoredVal.usr u))
        AuthService.TOKEN_KEY = storeGet s.storage AuthService.TOKEN_KEY :=
      storeGet_storeSet_of_ne _ _ _ _ token_key_ne_user_key
    simp [AuthService.getToken, AuthService.setUser, hb, h1]

theorem getUser_setUser (s : ClientState) (u : User) (hb : s.isBrowser = true) :
    AuthService.getUser (AuthService.setUser s u) = some u := by
  have h1 : storeGet (storeSet s.storage AuthService.USER_KEY (StoredVal.usr u))
      AuthService.USER_KEY = some (StoredVal.usr u) :=
    storeGet_storeSet_self _ _ _
  simp [AuthService.getUser, AuthService.setUser, hb, h1]

theorem getUser_setUser_setToken (s : ClientState) (t : String) (u : User)
    (hb : s.isBrowser = true) :
    AuthService.getUser (AuthService.setUser (AuthService.setToken s t) u) = some u := by
  have hb2 : (AuthService.setToken s t).isBrowser = true := by
    simp [AuthService.setToken, hb]
  exact getUser_setUser _ _ hb2

theorem getToken_setUser_setToken (s : ClientState) (t : String) (u : User)
    (hb : s.isBrowser = true) :
    AuthService.getToken (AuthService.setUser (AuthService.setToken s t) u) = some t := by
  rw [getToken_setUser]
  exact getToken_setToken s t hb

theorem removeToken_idem (s : ClientState) :
    AuthService.removeToken (AuthService.removeToken s) = AuthService.removeToken s := by
  cases hb : s.isBrowser with
  | false => simp [AuthService.removeToken, hb]
  | true =>
    have h1 : storeGet (storeRemove (storeRemove s.storage AuthService.TOKEN_KEY)
        AuthService.USER_KEY) AuthService.TOKEN_KEY = none := by
      rw [storeGet_storeRemove_of_ne _ _ _ token_key_ne_user_key,
        storeGet_storeRemove_self]
    have h2 : storeRemove (storeRemove (storeRemove s.storage AuthService.TOKEN_KEY)
        AuthService.USER_KEY) AuthService.TOKEN_KEY =
        storeRemove (storeRemove s.storage AuthService.TOKEN_KEY) AuthService.USER_KEY :=
      storeRemove_of_get_none _ _ h1
    simp [AuthService.removeToken, hb, h2, storeRemove_idem]

theorem removeToken_of_empty (s : ClientState)
    (ht : storeGet s.storage AuthService.TOKEN_KEY = none)
    (hu : storeGet s.storage AuthService.USER_KEY = none)
    (hc : s.cookie = none) :
    AuthService.removeToken s = s := by
  obtain ⟨ib, st, ck⟩ := s
  simp only at ht hu hc
  subst hc
  cases ib with
  | false => simp [AuthService.removeToken]
  | true =>
    have h1 : storeRemove st AuthService.TOKEN_KEY = st :=
      storeRemove_of_get_none _ _ ht
    have h2 : storeRemove st AuthService.USER_KEY = st :=
      storeRemove_of_get_none _ _ hu
    simp [AuthService.removeToken, h1, h2]

/-- C1: the claim states that a mount with a stored token and a cached user
synchronously exposes Authenticated(cachedUser) before any network response.
On the code this is false: with a token and a cached user, the synchronous
prefix of initAuth suspends on the awaited verifyToken while the exposed
controller state is still Initializing (isLoading true, user null). -/
theorem C1_counterexample :
    AuthService.getToken warmState = some "T1" ∧
    AuthService.getUser warmState = some sampleUser ∧
    (initAuthSync warmState mountCtrl).2 = InitSuspension.onVerify ∧
    sessionState warmState (initAuthSync warmState mountCtrl).1 =
      SessionState.initializing ∧
    sessionState warmState (initAuthSync warmState mountCtrl).1 ≠
      SessionState.authenticated sampleUser := by
  decide

/-- C1 (amended): with a stored token and a cached user, mounting the
Session Controller keeps the exposed state Initializing (isLoading true,
user unchanged) through the verifyToken round trip; only when verifyToken
resolves true does the controller expose Authenticated(cachedUser), and when
it resolves false the Token Store is cleared and the state becomes
Unauthenticated. -/
theorem C1_warm_mount (s : ClientState) (c : AuthCtrl) (t : String) (u : User)
    (ht : AuthService.getToken s = some t) (hu : AuthService.getUser s = some u) :
    (initAuthSync s c).2 = InitSuspension.onVerify ∧
    (initAuthSync s c).1.isLoading = true ∧
    (initAuthSync s c).1.user = c.user ∧
    (∀ env, (AuthService.verifyToken s env).2 = true →
      initAuthResumeVerify s (initAuthSync s c).1 env =
        ((AuthService.verifyToken s env).1,
          { user := some u, isLoading := false })) ∧
    (∀ env, (AuthService.verifyToken s env).2 = false →
      (initAuthResumeVerify s (initAuthSync s c).1 env).2 =
        { user := none, isLoading := false } ∧
      AuthService.getToken (initAuthResumeVerify s (initAuthSync s c).1 env).1 =
        none) := by
  refine ⟨?_, ?_, ?_, ?_, ?_⟩
  · simp [initAuthSync, ht, hu]
  · simp [initAuthSync, ht, hu]
  · simp [initAuthSync, ht, hu]
  · intro env hv
    simp [initAuthSync, initAuthResumeVerify, ht, hu, hv]
  · intro env hv
    constructor
    · simp [initAuthSync, initAuthResumeVerify, ht, hu, hv]
    · simp only [initAuthResumeVerify, hv]
      simp [getToken_removeToken]

/-- Witness for C1_warm_mount at the concrete warm-start state. -/
theorem C1_warm_mount_witness :
    (initAuthSync warmState mountCtrl).2 = InitSuspension.onVerify ∧
    initAuthResumeVerify warmState (initAuthSync warmState mountCtrl).1
        (AuthService.VerifyResult.resolved 200) =
      (warmState, { user := some sampleUser, isLoading := false }) := by
  have h := C1_warm_mount warmState mountCtrl "T1" sampleUser (by decide) (by decide)
  exact ⟨h.1, by
    have := h.2.2.2.1 (AuthService.VerifyResult.resolved 200) (by decide)
    simpa using this⟩

/-- C2: the claim states that a periodic-tick verifyToken failure of
network/transient kind leaves the controller Authenticated. On the code this
is false: verifyToken resolves false on a rejected fetch, and the tick
clears the user on any false result, so the state drops to Unauthenticated
even though the Token Store is unchanged. -/
theorem C2_counterexample :
    sessionState warmState authedCtrl = SessionState.authenticated sampleUser ∧
    (periodicTick warmState authedCtrl AuthService.VerifyResult.netError).1 =
      warmState ∧
    sessionState
      (periodicTick warmState authedCtrl AuthService.VerifyResult.netError).1
      (periodicTick warmState authedCtrl AuthService.VerifyResult.netError).2 =
      SessionState.unauthenticated := by
  decide

/-- C2 (amended): on a periodic tick with a stored token, a successful
verification keeps state and store unchanged; a network failure keeps the
Token Store unchanged but still clears the user (transition to
Unauthenticated), because verifyToken resolves false for network failures
too; a 401 response clears both the Token Store and the user; any other
non-ok response keeps the store but clears the user. -/
theorem C2_periodic_tick (s : ClientState) (c : AuthCtrl) (t : String)
    (ht : AuthService.getToken s = some t) :
    (∀ status, AuthService.statusOk status = true →
      periodicTick s c (AuthService.VerifyResult.resolved status) = (s, c)) ∧
    periodicTick s c AuthService.VerifyResult.netError =
      (s, { c with user := none }) ∧
    periodicTick s c (AuthService.VerifyResult.resolved 401) =
      (AuthService.removeToken s, { c with user := none }) ∧
    (∀ status, AuthService.statusOk status = false → status ≠ 401 →
      periodicTick s c (AuthService.VerifyResult.resolved status) =
        (s, { c with user := none })) := by
  refine ⟨?_, ?_, ?_, ?_⟩
  · intro status hs
    simp [periodicTick, AuthService.verifyToken, ht, hs]
  · simp [periodicTick, AuthService.verifyToken, ht]
  · simp [periodicTick, AuthService.verifyToken, ht, AuthService.statusOk]
  · intro status hs h4
    simp [periodicTick, AuthService.verifyToken, ht, hs, h4]

/-- Witness for C2_periodic_tick at the concrete warm state. -/
theorem C2_periodic_tick_witness :
    periodicTick warmState authedCtrl (AuthService.VerifyResult.resolved 200) =
      (warmState, authedCtrl) ∧
    periodicTick warmState authedCtrl AuthService.VerifyResult.netError =
      (warmState, { authedCtrl with user := none }) := by
  have h := C2_periodic_tick warmState authedCtrl "T1" (by decide)
  exact ⟨h.1 200 (by decide), h.2.1⟩

/-- C3: the claim states that verifyToken fails distinguishably (throws) on
a network error, as opposed to resolving false for an invalid token. On the
code this is false: the catch block swallows the rejected fetch and resolves
the same boolean false that an invalid token produces, so at the concrete
warm state the two results are identical. -/
theorem C3_counterexample :
    (AuthService.verifyToken warmState (AuthService.VerifyResult.resolved 401)).2 =
      (AuthService.verifyToken warmState AuthService.VerifyResult.netError).2 ∧
    (AuthService.verifyToken warmState AuthService.VerifyResult.netError).2 =
      false := by
  decide

/-- C3 (amended): verifyToken never throws; it resolves false both for an
invalid token (non-ok response) and for a network failure, so the two are
not distinguishable from the resolved value. They differ only in the side
effect on the Token Store: a 401 response clears the token, every other
failure leaves the store untouched; an ok response resolves true. -/
theorem C3_verify_token (s : ClientState) (t : String)
    (ht : AuthService.getToken s = some t) :
    (∀ status, AuthService.statusOk status = true →
      AuthService.verifyToken s (AuthService.VerifyResult.resolved status) =
        (s, true)) ∧
    AuthService.verifyToken s (AuthService.VerifyResult.resolved 401) =
      (AuthService.removeToken s, false) ∧
    (∀ status, AuthService.statusOk status = false → status ≠ 401 →
      AuthService.verifyToken s (AuthService.VerifyResult.resolved status) =
        (s, false)) ∧
    AuthService.verifyToken s AuthService.VerifyResult.netError = (s, false) := by
  refine ⟨?_, ?_, ?_, ?_⟩
  · intro status hs
    simp [AuthService.verifyToken, ht, hs]
  · simp [AuthService.verifyToken, ht, AuthService.statusOk]
  · intro status hs h4
    simp [AuthService.verifyToken, ht, hs, h4]
  · simp [AuthService.verifyToken, ht]

/-- Witness for C3_verify_token at the concrete warm state. -/
theorem C3_verify_token_witness :
    AuthService.verifyToken warmState (AuthService.VerifyResult.resolved 200) =
      (warmState, true) ∧
    AuthService.verifyToken warmState AuthService.VerifyResult.netError =
      (warmState, false) := by
  have h := C3_verify_token warmState "T1" (by decide)
  exact ⟨h.1 200 (by decide), h.2.2.2⟩

/-- C4: the claim states that getCurrentUser fails with an
AuthorizationError outcome on an invalid token and a NetworkError outcome on
connectivity problems, distinguishable by the caller from the result. On the
code this is false: both failure classes resolve with the same null result
(the catch block swallows network errors), as the concrete warm state shows. -/
theorem C4_counterexample :
    (AuthService.getCurrentUser warmState (AuthService.MeResult.httpError 401)).2 =
      (AuthService.getCurrentUser warmState AuthService.MeResult.netError).2 ∧
    (AuthService.getCurrentUser warmState AuthService.MeResult.netError).2 =
      none := by
  decide

/-- C4 (amended): getCurrentUser never throws; it resolves null for every
failure (invalid token, other HTTP error, parse failure, network failure),
so the two failure classes are not distinguishable from the result. They
differ only in the side effect on the Token Store: a 401 response clears it,
every other failure leaves it untouched; an ok response caches and returns
the fetched user. -/
theorem C4_get_current_user (s : ClientState) (t : String)
    (ht : AuthService.getToken s = some t) :
    (∀ u, AuthService.getCurrentUser s (AuthService.MeResult.ok u) =
      (AuthService.setUser s u, some u)) ∧
    AuthService.getCurrentUser s (AuthService.MeResult.httpError 401) =
      (AuthService.removeToken s, none) ∧
    (∀ status, status ≠ 401 →
      AuthService.getCurrentUser s (AuthService.MeResult.httpError status) =
        (s, none)) ∧
    AuthService.getCurrentUser s AuthService.MeResult.badBody = (s, none) ∧
    AuthService.getCurrentUser s AuthService.MeResult.netError = (s, none) := by
  refine ⟨?_, ?_, ?_, ?_, ?_⟩
  · intro u
    simp [AuthService.getCurrentUser, ht]
  · simp [AuthService.getCurrentUser, ht]
  · intro status h4
    simp [AuthService.getCurrentUser, ht, h4]
  · simp [AuthService.getCurrentUser, ht]
  · simp [AuthService.getCurrentUser, ht]

/-- Witness for C4_get_current_user at the concrete warm state. -/
theorem C4_get_current_user_witness :
    AuthService.getCurrentUser warmState AuthService.MeResult.netError =
      (warmState, none) ∧
    AuthService.getCurrentUser warmState (AuthService.MeResult.httpError 401) =
      (AuthService.removeToken warmState, none) := by
  have h := C4_get_current_user warmState "T1" (by decide)
  exact ⟨h.2.2.2.2, h.2.1⟩

/-- C5: after any invocation of the logout operation, whatever the outcome
of the remote call, the Token Store holds neither token nor user snapshot
and the exposed session state is Unauthenticated (when not in the loading
phase). -/
theorem C5_logout (s : ClientState) (c : AuthCtrl) (env : AuthService.LogoutResult) :
    AuthService.getToken (logoutCtrl s c env).1 = none ∧
    AuthService.getUser (logoutCtrl s c env).1 = none ∧
    (logoutCtrl s c env).2.user = none ∧
    isAuthenticated (logoutCtrl s c env).1 (logoutCtrl s c env).2 = false ∧
    ((logoutCtrl s c env).2.isLoading = false →
      sessionState (logoutCtrl s c env).1 (logoutCtrl s c env).2 =
        SessionState.unauthenticated) := by
  refine ⟨?_, ?_, ?_, ?_, ?_⟩
  · simp [logoutCtrl, AuthService.logout, getToken_removeToken]
  · simp [logoutCtrl, AuthService.logout, getUser_removeToken]
  · simp [logoutCtrl]
  · simp [logoutCtrl, isAuthenticated]
  · intro hl
    simp [logoutCtrl] at hl
    simp [logoutCtrl, sessionState, hl]

/-- Witness for C5_logout at the concrete warm authenticated state, with the
remote logout call failing. -/
theorem C5_logout_witness :
    AuthService.getToken
      (logoutCtrl warmState authedCtrl AuthService.LogoutResult.failed).1 = none ∧
    sessionState
      (logoutCtrl warmState authedCtrl AuthService.LogoutResult.failed).1
      (logoutCtrl warmState authedCtrl AuthService.LogoutResult.failed).2 =
      SessionState.unauthenticated := by
  have h := C5_logout warmState authedCtrl AuthService.LogoutResult.failed
  exact ⟨h.1, h.2.2.2.2 (by decide)⟩

/-- C6: a failed login (non-ok response, unparsable body, or rejected fetch)
leaves the client state and the controller state exactly as they were and
propagates the error to the caller; a successful login stores the returned
token and user and moves the exposed state to Authenticated(user). The
browser hypothesis reflects that the login flow runs inside a mounted page;
the isLoading hypothesis reflects that login is only reachable after the
initialization pass ended. -/
theorem C6_login (s : ClientState) (c : AuthCtrl)
    (hb : s.isBrowser = true) (hl : c.isLoading = false) :
    (∀ detail, loginCtrl s c (AuthService.LoginResult.httpError detail) =
      (s, c, some (detail.getD "Login failed"))) ∧
    (∀ msg, loginCtrl s c (AuthService.LoginResult.badBody msg) =
      (s, c, some msg)) ∧
    (∀ msg, loginCtrl s c (AuthService.LoginResult.netError msg) =
      (s, c, some msg)) ∧
    (∀ resp,
      AuthService.getToken (loginCtrl s c (AuthService.LoginResult.ok resp)).1 =
        some resp.access_token ∧
      AuthService.getUser (loginCtrl s c (AuthService.LoginResult.ok resp)).1 =
        some resp.user ∧
      (loginCtrl s c (AuthService.LoginResult.ok resp)).2.1.user =
        some resp.user ∧
      (loginCtrl s c (AuthService.LoginResult.ok resp)).2.2 = none ∧
      sessionState (loginCtrl s c (AuthService.LoginResult.ok resp)).1
        (loginCtrl s c (AuthService.LoginResult.ok resp)).2.1 =
        SessionState.authenticated resp.user) := by
  refine ⟨?_, ?_, ?_, ?_⟩
  · intro detail
    simp [loginCtrl, AuthService.login]
  · intro msg
    simp [loginCtrl, AuthService.login]
  · intro msg
    simp [loginCtrl, AuthService.login]
  · intro resp
    have htok := getToken_setUser_setToken s resp.access_token resp.user hb
    have husr := getUser_setUser_setToken s resp.access_token resp.user hb
    refine ⟨?_, ?_, ?_, ?_, ?_⟩
    · simpa [loginCtrl, AuthService.login] using htok
    · simpa [loginCtrl, AuthService.login] using husr
    · simp [loginCtrl, AuthService.login]
    · simp [loginCtrl, AuthService.login]
    · simp [loginCtrl, AuthService.login, sessionState, hl]
      simp [loginCtrl, AuthService.login] at htok
      simp [htok]

/-- The auth response of the spec scenario: token T1 for user u1. -/
def sampleAuthResponse : AuthResponse :=
  { access_token := "T1", token_type := "bearer", expires_in := 3600,
    user := sampleUser }

/-- Witness for C6_login: the spec scenario of logging in with a@b.com and
receiving token T1 and user u1. -/
theorem C6_login_witness :
    AuthService.getToken
      (loginCtrl emptyBrowserState { user := none, isLoading := false }
        (AuthService.LoginResult.ok sampleAuthResponse)).1 = some "T1" ∧
    loginCtrl emptyBrowserState { user := none, isLoading := false }
        (AuthService.LoginResult.httpError (some "Invalid credentials")) =
      (emptyBrowserState, { user := none, isLoading := false },
        some "Invalid credentials") := by
  have h := C6_login emptyBrowserState { user := none, isLoading := false }
    (by decide) (by decide)
  exact ⟨(h.2.2.2 sampleAuthResponse).1, h.1 (some "Invalid credentials")⟩

/-- C7: the claim states that the Access Guard renders its children exactly
when the state is Authenticated with a qualifying role. On the code this is
false: at a concrete state that is authenticated with role developer against
a required-role list of admin only, the render body still returns the
children (the unauthorized navigation is issued by the effect while the
children render). -/
theorem C7_counterexample :
    authedCtrl.user = some sampleUser ∧
    sampleUser.role = "developer" ∧
    (["admin"].contains sampleUser.role) = false ∧
    isAuthenticated warmState authedCtrl = true ∧
    protectedRouteRender warmState authedCtrl = RenderResult.childrenView ∧
    protectedRouteEffect warmState authedCtrl ["admin"] =
      some NavTarget.unauthorizedPage := by
  decide

/-- C7 (amended): the Access Guard renders the fallback while Initializing,
renders nothing while not authenticated, and renders its children whenever
the state is authenticated and loading has finished, regardless of the
required-role list; the effect issues at most one navigation per state: to
the login view when not authenticated, to the unauthorized view when a
non-empty required-role list excludes the role of the user, and none
otherwise (so the wrong-role case renders the children while the
unauthorized navigation is in flight). -/
theorem C7_access_guard (s : ClientState) (c : AuthCtrl) (roles : List String) :
    (c.isLoading = true → protectedRouteRender s c = RenderResult.fallbackView ∧
      protectedRouteEffect s c roles = none) ∧
    (c.isLoading = false → isAuthenticated s c = false →
      protectedRouteRender s c = RenderResult.emptyView ∧
      protectedRouteEffect s c roles = some NavTarget.loginPage) ∧
    (∀ u, c.isLoading = false → c.user = some u →
      (AuthService.getToken s).isSome = true →
      protectedRouteRender s c = RenderResult.childrenView ∧
      protectedRouteEffect s c roles =
        (if roles.length > 0 && !(roles.contains u.role) then
          some NavTarget.unauthorizedPage
        else none)) := by
  refine ⟨?_, ?_, ?_⟩
  · intro hl
    simp [protectedRouteRender, protectedRouteEffect, hl]
  · intro hl hauth
    simp [protectedRouteRender, protectedRouteEffect, hl, hauth]
  · intro u hl hu htok
    have hauth : isAuthenticated s c = true := by
      simp [isAuthenticated, hu, htok]
    simp [protectedRouteRender, protectedRouteEffect, hl, hauth, hu]

/-- Witness for C7_access_guard across the three phases at concrete states. -/
theorem C7_access_guard_witness :
    protectedRouteRender warmState mountCtrl = RenderResult.fallbackView ∧
    protectedRouteRender emptyBrowserState { user := none, isLoading := false } =
      RenderResult.emptyView ∧
    protectedRouteRender warmState authedCtrl = RenderResult.childrenView ∧
    protectedRouteEffect warmState authedCtrl ["developer", "admin"] = none := by
  have h1 := (C7_access_guard warmState mountCtrl []).1 (by decide)
  have h2 := (C7_access_guard emptyBrowserState { user := none, isLoading := false }
    []).2.1 (by decide) (by decide)
  have h3 := (C7_access_guard warmState authedCtrl ["developer", "admin"]).2.2
    sampleUser (by decide) (by decide) (by decide)
  exact ⟨h1.1, h2.1, h3.1, by simpa using h3.2⟩

/-- C8: in a browser context, setToken followed by getToken returns the
token just stored; after removeToken both getters return null; removeToken
is idempotent, and on an already-empty store (no stored token, no stored
user, no live cookie) it is the identity; being a total function it never
throws. -/
theorem C8_store_roundtrip (s : ClientState) (t : String)
    (hb : s.isBrowser = true) :
    AuthService.getToken (AuthService.setToken s t) = some t ∧
    AuthService.getToken (AuthService.removeToken s) = none ∧
    AuthService.getUser (AuthService.removeToken s) = none ∧
    AuthService.removeToken (AuthService.removeToken s) =
      AuthService.removeToken s ∧
    (storeGet s.storage AuthService.TOKEN_KEY = none →
      storeGet s.storage AuthService.USER_KEY = none →
      s.cookie = none →
      AuthService.removeToken s = s) := by
  exact ⟨getToken_setToken s t hb, getToken_removeToken s, getUser_removeToken s,
    removeToken_idem s, fun ht hu hc => removeToken_of_empty s ht hu hc⟩

/-- Witness for C8_store_roundtrip at concrete stores. -/
theorem C8_store_roundtrip_witness :
    AuthService.getToken (AuthService.setToken emptyBrowserState "T1") =
      some "T1" ∧
    AuthService.getToken (AuthService.removeToken warmState) = none ∧
    AuthService.removeToken emptyBrowserState = emptyBrowserState := by
  have h1 := C8_store_roundtrip emptyBrowserState "T1" (by decide)
  have h2 := C8_store_roundtrip warmState "T1" (by decide)
  exact ⟨h1.1, h2.2.1, h1.2.2.2.2 (by decide) (by decide) (by decide)⟩

/-- C9: outside a browser (no window object), every Token Store operation
is a total no-op: the getters return null, the writers leave the state
untouched, and nothing throws. -/
theorem C9_server_side (s : ClientState) (t : String) (u : User)
    (hb : s.isBrowser = false) :
    AuthService.getToken s = none ∧
    AuthService.getUser s = none ∧
    AuthService.setToken s t = s ∧
    AuthService.setUser s u = s ∧
    AuthService.removeToken s = s := by
  simp [AuthService.getToken, AuthService.getUser, AuthService.setToken,
    AuthService.setUser, AuthService.removeToken, hb]

/-- A server-side state that nevertheless has entries in the underlying
store, showing the getters still return null without a window object. -/
def serverState : ClientState :=
  { isBrowser := false,
    storage := [(AuthService.TOKEN_KEY, StoredVal.str "T1")],
    cookie := none }

/-- Witness for C9_server_side at a concrete server-side state. -/
theorem C9_server_side_witness :
    AuthService.getToken serverState = none ∧
    AuthService.setToken serverState "T2" = serverState ∧
    AuthService.removeToken serverState = serverState := by
  have h := C9_server_side serverState "T2" sampleUser (by decide)
  exact ⟨h.1, h.2.2.1, h.2.2.2.2⟩

/-- C10: every auth-expired event dispatched by ApiClient.handleResponse is
dispatched for a 401 response, and at the moment of dispatch the token and
the user snapshot are already removed from the store and the mirrored cookie
is already expired, so the Session Controller receives the expiry signal
with the Token Store empty. -/
theorem C10_handle401 (s : ClientState) (status : Nat) (b : Body) (d : Dispatched)
    (hd : d ∈ (handleResponse s status b).2.1) :
    d.name = "auth-expired" ∧
    status = 401 ∧
    AuthService.getToken d.stateAtDispatch = none ∧
    AuthService.getUser d.stateAtDispatch = none ∧
    d.stateAtDispatch.cookie = none := by
  by_cases h4 : status = 401
  · cases hbr : s.isBrowser with
    | true =>
      have hclear : AuthService.removeToken s =
          ({ isBrowser := true,
             storage := storeRemove (storeRemove s.storage AuthService.TOKEN_KEY)
               AuthService.USER_KEY,
             cookie := none } : ClientState) := by
        simp [AuthService.removeToken, hbr]
      simp only [handleResponse, h4, hbr] at hd
      simp at hd
      subst hd
      refine ⟨rfl, h4, ?_, ?_, rfl⟩
      · rw [← hclear]
        exact getToken_removeToken s
      · rw [← hclear]
        exact getUser_removeToken s
    | false =>
      simp [handleResponse, h4, hbr] at hd
  · simp [handleResponse, h4] at hd

/-- Witness for C10_handle401: a 401 response at the warm state dispatches
exactly one auth-expired event whose dispatch-time store is empty. -/
theorem C10_handle401_witness :
    ({ name := "auth-expired", stateAtDispatch := emptyBrowserState } :
        Dispatched).name = "auth-expired" ∧
    (401 : Nat) = 401 ∧
    AuthService.getToken
      ({ name := "auth-expired", stateAtDispatch := emptyBrowserState } :
        Dispatched).stateAtDispatch = none ∧
    AuthService.getUser
      ({ name := "auth-expired", stateAtDispatch := emptyBrowserState } :
        Dispatched).stateAtDispatch = none ∧
    ({ name := "auth-expired", stateAtDispatch := emptyBrowserState } :
        Dispatched).stateAtDispatch.cookie = none :=
  C10_handle401 warmState 401 (Body.json { detail := none, message := none })
    { name := "auth-expired", stateAtDispatch := emptyBrowserState } (by decide)
